import Mathlib

/-!
Shallow embedding of the MLC-LLM JNI bridge
(`Android/src/app/src/main/cpp/mlc_llm_jni.cpp`).

The bridge keeps a single process-wide engine slot
(`static std::unique_ptr<MlcLlmState> g_state`) and exposes the exported
operations `nativeInit`, `nativePrompt`, `nativeGenerate`,
`nativeStopGeneration`, `nativeResetContext` and `nativeRelease`.  Each
operation is modelled as a pure function from the global engine state (the
`g_state` slot plus a fresh-address counter modelling pointer values returned
as handles) to the new state paired with the returned value.  Logging calls
have no observable effect and are omitted.  The `Backend` and `KvCacheType`
enum-class values are represented by their underlying `Int` codes, exactly as
`static_cast` stores them (CPU = 0, VULKAN_GPU = 1, ...; F32 = 0, F16 = 1,
Q8_0 = 2, Q4_0 = 3).
-/

namespace MlcLlm

/-- The `MlcLlmState` struct, with the C++ default member initializers.
`chatModule` is the opaque runtime pointer; the bridge never assigns it, so it
is `none` (nullptr) throughout. -/
structure MlcLlmState where
  chatModule : Option Unit := none
  backend : Int := 0
  gpuLayers : Int := 0
  contextSize : Int := 4096
  batchSize : Int := 512
  threads : Int := 4
  useFlashAttention : Bool := true
  kvCacheType : Int := 1
  isGenerating : Bool := false
  shouldStop : Bool := false
  pendingToken : String := ""
deriving DecidableEq

/-- The global bridge state: the `g_state` singleton slot, plus a counter
producing fresh nonzero addresses for the `jlong` handles `nativeInit`
returns (`reinterpret_cast<jlong>(g_state.get())`). -/
structure Engine where
  g_state : Option MlcLlmState
  nextAddr : Nat
deriving DecidableEq

/-- The state of the process before any JNI call: no engine. -/
def engine0 : Engine := { g_state := none, nextAddr := 1 }

/-- Byte length of the prompt as `strlen` sees it after
`GetStringUTFChars` (UTF-8 byte count; the strings in this development are
ASCII, where modified UTF-8 and UTF-8 agree). -/
def strlenUTF (s : String) : Nat := s.utf8ByteSize

/-- `nativeInit`: unconditionally replaces `g_state` with a fresh
`MlcLlmState` carrying the given configuration and returns the new state's
address as the handle.  The model path is only logged; no validation or
loading happens in the source, so initialization never fails. -/
def nativeInit (e : Engine) (modelPath : String)
    (backend gpuLayers contextSize batchSize threads : Int)
    (useFlashAttention : Bool) (kvCacheType : Int) : Int × Engine :=
  let st : MlcLlmState :=
    { chatModule := none, backend, gpuLayers, contextSize, batchSize, threads,
      useFlashAttention, kvCacheType,
      isGenerating := false, shouldStop := false, pendingToken := "" }
  ((e.nextAddr : Int), { g_state := some st, nextAddr := e.nextAddr + 1 })

/-- `nativePrompt`: returns `-1` when `g_state` is null, else the stub token
count `strlen(prompt) / 4`.  The handle argument is never read and the state
is not mutated. -/
def nativePrompt (e : Engine) (handle : Int) (prompt : String) : Int × Engine :=
  match e.g_state with
  | none => (-1, e)
  | some _ => (((strlenUTF prompt : Int)) / 4, e)

/-- `nativeGenerate`: returns null when `g_state` is null; returns null
immediately (state untouched) when `shouldStop` is set; otherwise raises
`isGenerating`, then (stub) lowers it again and returns null to signal end of
generation.  The sampling parameters and the handle are never read. -/
def nativeGenerate (e : Engine) (handle maxTokens : Int)
    (temperature topP : Float) (topK : Int) (repeatPenalty : Float)
    (seed : Int) : Option String × Engine :=
  match e.g_state with
  | none => (none, e)
  | some s =>
    if s.shouldStop then (none, e)
    else
      let s1 := { s with isGenerating := true }
      let s2 := { s1 with isGenerating := false }
      (none, { e with g_state := some s2 })

/-- `nativeStopGeneration`: sets `shouldStop` on the current state if one
exists; otherwise a no-op.  The handle argument is never read. -/
def nativeStopGeneration (e : Engine) (handle : Int) : Engine :=
  match e.g_state with
  | none => e
  | some s => { e with g_state := some { s with shouldStop := true } }

/-- `nativeResetContext`: clears `shouldStop` on the current state if one
exists; otherwise a no-op.  The handle argument is never read. -/
def nativeResetContext (e : Engine) (handle : Int) : Engine :=
  match e.g_state with
  | none => e
  | some s => { e with g_state := some { s with shouldStop := false } }

/-- `nativeRelease`: resets the `g_state` unique_ptr if it holds a state;
otherwise a no-op.  The handle argument is never read. -/
def nativeRelease (e : Engine) (handle : Int) : Engine :=
  match e.g_state with
  | none => e
  | some _ => { e with g_state := none }

/-- One JNI call, for reasoning about sequences of operations.  Each
constructor carries exactly the arguments of the exported function it
names. -/
inductive Op where
  | init (modelPath : String) (backend gpuLayers contextSize batchSize threads : Int)
      (useFlashAttention : Bool) (kvCacheType : Int)
  | prompt (handle : Int) (text : String)
  | generate (handle maxTokens : Int) (temperature topP : Float) (topK : Int)
      (repeatPenalty : Float) (seed : Int)
  | stopGeneration (handle : Int)
  | resetContext (handle : Int)
  | release (handle : Int)

/-- Effect of one JNI call on the global state (return values dropped). -/
def step (e : Engine) : Op → Engine
  | .init mp b gl cs bs th fl kv => (nativeInit e mp b gl cs bs th fl kv).2
  | .prompt h p => (nativePrompt e h p).2
  | .generate h mt te tp tk rp sd => (nativeGenerate e h mt te tp tk rp sd).2
  | .stopGeneration h => nativeStopGeneration e h
  | .resetContext h => nativeResetContext e h
  | .release h => nativeRelease e h

/-- Effect of a sequence of JNI calls. -/
def run (e : Engine) (ops : List Op) : Engine :=
  ops.foldl step e

/-- The operations that clear or discard the cancellation flag: an explicit
context reset, a release, and the implicit release done by a superseding
`nativeInit` (which installs a fresh state with `shouldStop = false`). -/
def Op.clearsCancel : Op → Bool
  | .init .. => true
  | .resetContext .. => true
  | .release .. => true
  | _ => false

/-- The list of tokens returned by `n` consecutive `nativeGenerate` calls
with a fixed generation request, threading the state through. -/
def genTokens (e : Engine) (handle maxTokens : Int) (temperature topP : Float)
    (topK : Int) (repeatPenalty : Float) (seed : Int) : Nat → List (Option String)
  | 0 => []
  | n + 1 =>
    let r := nativeGenerate e handle maxTokens temperature topP topK repeatPenalty seed
    r.1 :: genTokens r.2 handle maxTokens temperature topP topK repeatPenalty seed n

/-! Concrete states used by witnesses and counterexamples. -/

/-- An engine with an open session in its default (just-initialized)
configuration: what `nativeInit engine0` with the default arguments
produces. -/
def readyEngine : Engine := { g_state := some {}, nextAddr := 2 }

/-- A session state whose cancellation flag is set. -/
def stoppedState : MlcLlmState := { shouldStop := true }

/-- An engine whose open session has the cancellation flag set. -/
def stoppedEngine : Engine := { g_state := some stoppedState, nextAddr := 2 }

end MlcLlm

namespace MlcLlm

/-! Concrete traces used by witnesses and counterexamples. -/

/-- The spec scenario's `open` call: contextSize 4096, batchSize 512,
backend CPU (code 0), on a fresh process. -/
def scenOpen : Int × Engine := nativeInit engine0 "/models/llama3.bin" 0 0 4096 512 4 true 1

/-- The scenario's `ingestPrompt("Hello world")` call. -/
def scenPrompted : Int × Engine := nativePrompt scenOpen.2 scenOpen.1 "Hello world"

/-- First `generateNext` call of the scenario. -/
def scenGen1 : Option String × Engine :=
  nativeGenerate scenPrompted.2 scenOpen.1 256 0.7 0.9 40 1.1 42

/-- Second `generateNext` call of the scenario. -/
def scenGen2 : Option String × Engine :=
  nativeGenerate scenGen1.2 scenOpen.1 256 0.7 0.9 40 1.1 42

/-- Third `generateNext` call of the scenario. -/
def scenGen3 : Option String × Engine :=
  nativeGenerate scenGen2.2 scenOpen.1 256 0.7 0.9 40 1.1 42

/-- The scenario's `requestStop` call. -/
def scenStopped : Engine := nativeStopGeneration scenGen3.2 scenOpen.1

/-- The `generateNext` call made after `requestStop`. -/
def scenGen4 : Option String × Engine :=
  nativeGenerate scenStopped scenOpen.1 256 0.7 0.9 40 1.1 42

/-- The scenario's `resetContext` call. -/
def scenReset : Engine := nativeResetContext scenGen4.2 scenOpen.1

/-- The `generateNext` call made after `resetContext`. -/
def scenGen5 : Option String × Engine :=
  nativeGenerate scenReset scenOpen.1 256 0.7 0.9 40 1.1 42

/-- First `open` of the supersede scenario (model A). -/
def staleOpen1 : Int × Engine := nativeInit engine0 "/models/modelA.bin" 0 0 4096 512 4 true 1

/-- Second `open` of the supersede scenario (model B), leaving the handle of
the first open stale. -/
def staleOpen2 : Int × Engine :=
  nativeInit staleOpen1.2 "/models/modelB.bin" 1 10 2048 256 8 false 2

/-- A sequence of calls none of which clears the cancellation flag. -/
def stickyOps : List Op :=
  [.prompt 2 "again", .generate 2 16 1.0 0.9 40 1.1 7, .stopGeneration 2]

/-- A call sequence exercising init, prompt ingestion and generation. -/
def boundaryOps : List Op :=
  [.init "/models/llama3.bin" 0 0 4096 512 4 true 1, .prompt 1 "Hello world",
   .generate 1 256 0.7 0.9 40 1.1 42]

/-! Helper lemmas shared by the claim theorems. -/

/-- `nativePrompt` never mutates the global state. -/
theorem nativePrompt_state_id (e : Engine) (h : Int) (p : String) :
    (nativePrompt e h p).2 = e := by
  rcases e with ⟨g, n⟩
  cases g <;> rfl

/-- The stub `nativeGenerate` returns the null sentinel on every call. -/
theorem nativeGenerate_returns_none (e : Engine) (h mt : Int) (te tp : Float)
    (tk : Int) (rp : Float) (sd : Int) :
    (nativeGenerate e h mt te tp tk rp sd).1 = none := by
  rcases e with ⟨g, n⟩
  cases g with
  | none => rfl
  | some s => by_cases hs : s.shouldStop <;> simp [nativeGenerate, hs]

/-- Every `genTokens` trace is a list of null sentinels. -/
theorem genTokens_all_none (h mt : Int) (te tp : Float) (tk : Int) (rp : Float)
    (sd : Int) : ∀ (n : Nat) (e : Engine),
    genTokens e h mt te tp tk rp sd n = List.replicate n none := by
  intro n
  induction n with
  | zero => intro e; rfl
  | succ k ih =>
    intro e
    simp [genTokens, nativeGenerate_returns_none, List.replicate_succ, ih]

/-- Any single JNI call preserves the invariant that the session (when one
exists) is not flagged as generating. -/
theorem step_isGenerating_false (e : Engine)
    (he : ∀ u, e.g_state = some u → u.isGenerating = false) (op : Op) :
    ∀ t, (step e op).g_state = some t → t.isGenerating = false := by
  rcases e with ⟨g, n⟩
  cases op with
  | init mp b gl cs bs th fl kv =>
    intro t ht
    obtain rfl := (Option.some.inj ht).symm
    rfl
  | prompt hdl p =>
    intro t ht
    cases g with
    | none => exact he t ht
    | some s => exact he t ht
  | generate hdl mt te tp tk rp sd =>
    intro t ht
    cases g with
    | none => exact he t ht
    | some s =>
      by_cases hs : s.shouldStop
      · have hst : (step ⟨some s, n⟩ (Op.generate hdl mt te tp tk rp sd)) = ⟨some s, n⟩ := by
          simp [step, nativeGenerate, hs]
        rw [hst] at ht
        exact he t ht
      · have hst : (step ⟨some s, n⟩ (Op.generate hdl mt te tp tk rp sd)).g_state
            = some { s with isGenerating := false } := by
          simp [step, nativeGenerate, hs]
        rw [hst] at ht
        obtain rfl := (Option.some.inj ht).symm
        rfl
  | stopGeneration hdl =>
    intro t ht
    cases g with
    | none => exact he t ht
    | some s =>
      have hst : (step ⟨some s, n⟩ (Op.stopGeneration hdl)).g_state
          = some { s with shouldStop := true } := rfl
      rw [hst] at ht
      obtain rfl := (Option.some.inj ht).symm
      exact he s rfl
  | resetContext hdl =>
    intro t ht
    cases g with
    | none => exact he t ht
    | some s =>
      have hst : (step ⟨some s, n⟩ (Op.resetContext hdl)).g_state
          = some { s with shouldStop := false } := rfl
      rw [hst] at ht
      obtain rfl := (Option.some.inj ht).symm
      exact he s rfl
  | release hdl =>
    intro t ht
    cases g with
    | none => exact he t ht
    | some s => exact Option.noConfusion ht

/-- Any sequence of JNI calls preserves the not-generating invariant. -/
theorem isGenerating_invariant_run (ops : List Op) :
    ∀ (e : Engine), (∀ u, e.g_state = some u → u.isGenerating = false) →
    ∀ s, (run e ops).g_state = some s → s.isGenerating = false := by
  induction ops with
  | nil => intro e he s hs; exact he s hs
  | cons op rest ih =>
    intro e he s hs
    exact ih (step e op) (step_isGenerating_false e he op) s hs

end MlcLlm

namespace MlcLlm

/-- C1: if the session's cancellation flag (`shouldStop`) is set when
`nativeGenerate` is called, the call returns the end-of-sequence sentinel
(null) immediately and leaves the whole engine state unchanged: no runtime
invocation, no counter advance, no mutation. -/
theorem generateNext_cancelled_returns_sentinel (e : Engine) (s : MlcLlmState)
    (h mt : Int) (te tp : Float) (tk : Int) (rp : Float) (sd : Int)
    (hopen : e.g_state = some s) (hstop : s.shouldStop = true) :
    nativeGenerate e h mt te tp tk rp sd = (none, e) := by
  simp [nativeGenerate, hopen, hstop]

/-- C1 witness: a concrete cancelled session on which `nativeGenerate`
returns the sentinel and leaves the state untouched. -/
theorem generateNext_cancelled_returns_sentinel_witness :
    stoppedEngine.g_state = some stoppedState ∧ stoppedState.shouldStop = true ∧
    nativeGenerate stoppedEngine 1 256 0.7 0.9 40 1.1 42 = (none, stoppedEngine) :=
  ⟨rfl, rfl,
    generateNext_cancelled_returns_sentinel stoppedEngine stoppedState 1 256 0.7 0.9 40 1.1 42
      rfl rfl⟩

/-- C2: two sessions opened with identical configuration (from arbitrary,
possibly different prior engine states) and fed the identical prompt and
identical generation request (same sampling parameters and seed) produce
identical token sequences under repeated `nativeGenerate` calls. -/
theorem generateNext_deterministic (e1 e2 : Engine) (mp : String)
    (b gl cs bs th : Int) (fl : Bool) (kv : Int) (pText : String)
    (hp1 hp2 hg1 hg2 mt : Int) (te tp : Float) (tk : Int) (rp : Float)
    (sd : Int) (n : Nat) :
    genTokens (nativePrompt (nativeInit e1 mp b gl cs bs th fl kv).2 hp1 pText).2
        hg1 mt te tp tk rp sd n
      = genTokens (nativePrompt (nativeInit e2 mp b gl cs bs th fl kv).2 hp2 pText).2
        hg2 mt te tp tk rp sd n := by
  rw [genTokens_all_none, genTokens_all_none]

/-- C3 counterexample: `nativeInit` called with the unopenable model path ""
does not fail with an initialization error; it returns the valid handle 1 and
an open session in the Ready state, because the source performs no
validation at all. -/
theorem open_validates_nothing_cex :
    nativeInit engine0 "" 0 0 4096 512 4 true 1 = (1, readyEngine) := by
  decide

/-- C3 amended: `nativeInit` always succeeds, whatever the model path and
configuration; it returns the fresh state's address as the handle and
installs a session holding exactly the given configuration with
`isGenerating = false` (phase Ready) and `shouldStop = false`. -/
theorem open_always_succeeds (e : Engine) (mp : String) (b gl cs bs th : Int)
    (fl : Bool) (kv : Int) :
    (nativeInit e mp b gl cs bs th fl kv).1 = (e.nextAddr : Int) ∧
    (nativeInit e mp b gl cs bs th fl kv).2.g_state =
      some { chatModule := none, backend := b, gpuLayers := gl, contextSize := cs,
             batchSize := bs, threads := th, useFlashAttention := fl,
             kvCacheType := kv, isGenerating := false, shouldStop := false,
             pendingToken := "" } :=
  ⟨rfl, rfl⟩

/-- C4 counterexample: on an open session, the non-empty prompt "Hi" is
reported as 0 tokens (`strlen("Hi") / 4 = 0`), so the returned count is not
positive for every non-empty prompt. -/
theorem ingestPrompt_zero_cex :
    readyEngine.g_state.isSome = true ∧ "Hi" ≠ "" ∧
    (nativePrompt readyEngine 1 "Hi").1 = 0 := by
  decide

/-- C4 amended: on an open session, `nativePrompt` returns the stub estimate
`byteLength / 4`; the count is at most the length of the input, it is
positive whenever the prompt is at least 4 bytes long, and the state is
unchanged. -/
theorem ingestPrompt_token_count (e : Engine) (s : MlcLlmState) (h : Int)
    (p : String) (hopen : e.g_state = some s) :
    (nativePrompt e h p).1 = ((strlenUTF p / 4 : Nat) : Int) ∧
    (nativePrompt e h p).1 ≤ (strlenUTF p : Int) ∧
    (4 ≤ strlenUTF p → 0 < (nativePrompt e h p).1) ∧
    (nativePrompt e h p).2 = e := by
  have hres : nativePrompt e h p = (((strlenUTF p : Int)) / 4, e) := by
    simp [nativePrompt, hopen]
  rw [hres]
  refine ⟨by omega, by omega, fun h4 => by omega, rfl⟩

/-- C4 witness: the scenario prompt "Hello world" on an open session. -/
theorem ingestPrompt_token_count_witness :
    readyEngine.g_state = some {} ∧
    ((nativePrompt readyEngine 1 "Hello world").1 = ((strlenUTF "Hello world" / 4 : Nat) : Int) ∧
     (nativePrompt readyEngine 1 "Hello world").1 ≤ (strlenUTF "Hello world" : Int) ∧
     (4 ≤ strlenUTF "Hello world" → 0 < (nativePrompt readyEngine 1 "Hello world").1) ∧
     (nativePrompt readyEngine 1 "Hello world").2 = readyEngine) :=
  ⟨rfl, ingestPrompt_token_count readyEngine {} 1 "Hello world" rfl⟩

/-- C5 counterexample: in the spec scenario (open with contextSize 4096,
batchSize 512, CPU backend, then ingest "Hello world"), the very first
`nativeGenerate` call returns the null sentinel, not a non-null token: the
stub never produces a token. -/
theorem scenario_first_generate_null_cex :
    scenPrompted.1 = 2 ∧ scenGen1.1 = none := by
  decide

/-- C5 amended: in the scenario, `ingestPrompt("Hello world")` returns 2
(positive and at most 11), every `nativeGenerate` call returns the null
sentinel (the stub produces no tokens), the `nativeGenerate` after
`requestStop` returns null with the state unchanged, and `resetContext`
clears the cancellation flag after which `nativeGenerate` proceeds past the
cancellation check but still returns the sentinel. -/
theorem scenario_stub_trace :
    scenPrompted.1 = 2 ∧ (0 : Int) < scenPrompted.1 ∧ scenPrompted.1 ≤ 11 ∧
    scenGen1.1 = none ∧ scenGen2.1 = none ∧ scenGen3.1 = none ∧
    scenStopped.g_state.map MlcLlmState.shouldStop = some true ∧
    scenGen4.1 = none ∧ scenGen4.2 = scenStopped ∧
    scenReset.g_state.map MlcLlmState.shouldStop = some false ∧
    scenGen5.1 = none ∧
    scenGen5.2.g_state.map MlcLlmState.isGenerating = some false := by
  decide

/-- C6: with no open session, `nativePrompt` returns the error code -1
(`NotInitializedError`) and leaves the state unchanged; it does not crash. -/
theorem ingestPrompt_not_initialized (e : Engine) (h : Int) (p : String)
    (hnone : e.g_state = none) : nativePrompt e h p = (-1, e) := by
  simp [nativePrompt, hnone]

/-- C6 witness: prompting the fresh process, which has no session. -/
theorem ingestPrompt_not_initialized_witness :
    engine0.g_state = none ∧ nativePrompt engine0 1 "Hello" = (-1, engine0) :=
  ⟨rfl, ingestPrompt_not_initialized engine0 1 "Hello" rfl⟩

/-- C7: `nativeRelease` is idempotent on every state and with any handles:
releasing twice yields exactly the state of releasing once; the second call
is a no-op and never a double-free. -/
theorem release_idempotent (e : Engine) (h1 h2 : Int) :
    nativeRelease (nativeRelease e h1) h2 = nativeRelease e h1 := by
  rcases e with ⟨g, n⟩
  cases g <;> rfl

/-- C8 counterexample: after two successive opens, calling
`nativeStopGeneration` with the stale handle of the first session (1, distinct
from the new handle 2) is neither a `NotInitializedError` nor a no-op: it sets
the cancellation flag of the NEW session, because every operation ignores its
handle argument and acts on the global slot. -/
theorem stale_handle_affects_new_session_cex :
    staleOpen1.1 ≠ staleOpen2.1 ∧
    staleOpen2.2.g_state.map MlcLlmState.shouldStop = some false ∧
    (nativeStopGeneration staleOpen2.2 staleOpen1.1).g_state.map MlcLlmState.shouldStop
      = some true := by
  decide

/-- C8 amended: a second `nativeInit` supersedes the first, replacing the
global slot with a fresh session built from the new configuration; and every
operation ignores its handle argument entirely (being a total function, it
never crashes), so a call made with the stale handle behaves exactly like the
same call made with the current handle — acting on the new session rather
than failing or being a no-op. -/
theorem open_supersedes_handles_ignored :
    (∀ (e : Engine) (mp1 : String) (b1 gl1 cs1 bs1 th1 : Int) (fl1 : Bool) (kv1 : Int)
       (mp2 : String) (b2 gl2 cs2 bs2 th2 : Int) (fl2 : Bool) (kv2 : Int),
       (nativeInit (nativeInit e mp1 b1 gl1 cs1 bs1 th1 fl1 kv1).2
           mp2 b2 gl2 cs2 bs2 th2 fl2 kv2).2.g_state
         = some { chatModule := none, backend := b2, gpuLayers := gl2,
                  contextSize := cs2, batchSize := bs2, threads := th2,
                  useFlashAttention := fl2, kvCacheType := kv2,
                  isGenerating := false, shouldStop := false, pendingToken := "" }) ∧
    (∀ (e : Engine) (h h2 : Int) (p : String),
       nativePrompt e h p = nativePrompt e h2 p) ∧
    (∀ (e : Engine) (h h2 mt : Int) (te tp : Float) (tk : Int) (rp : Float) (sd : Int),
       nativeGenerate e h mt te tp tk rp sd = nativeGenerate e h2 mt te tp tk rp sd) ∧
    (∀ (e : Engine) (h h2 : Int), nativeStopGeneration e h = nativeStopGeneration e h2) ∧
    (∀ (e : Engine) (h h2 : Int), nativeResetContext e h = nativeResetContext e h2) ∧
    (∀ (e : Engine) (h h2 : Int), nativeRelease e h = nativeRelease e h2) := by
  refine ⟨?_, ?_, ?_, ?_, ?_, ?_⟩ <;> intros <;> rfl

/-- C9: once the cancellation flag is set, it stays set across any sequence
of operations that contains no `resetContext`, no `release` and no
superseding `init`; in particular neither `nativeGenerate` nor
`nativePrompt` ever clears it. -/
theorem cancelRequested_sticky (ops : List Op) (e : Engine) (s : MlcLlmState)
    (hopen : e.g_state = some s) (hstop : s.shouldStop = true)
    (hops : ∀ op ∈ ops, op.clearsCancel = false) :
    (run e ops).g_state.map MlcLlmState.shouldStop = some true := by
  induction ops generalizing e s with
  | nil => simp [run, List.foldl, hopen, hstop]
  | cons op rest ih =>
    have hop : op.clearsCancel = false := hops op (List.mem_cons_self _ _)
    have hrest : ∀ o ∈ rest, o.clearsCancel = false :=
      fun o ho => hops o (List.mem_cons_of_mem _ ho)
    have hrun : run e (op :: rest) = run (step e op) rest := rfl
    rw [hrun]
    cases op with
    | init mp b gl cs bs th fl kv => simp [Op.clearsCancel] at hop
    | resetContext hdl => simp [Op.clearsCancel] at hop
    | release hdl => simp [Op.clearsCancel] at hop
    | prompt hdl p =>
      have hstep : step e (.prompt hdl p) = e := nativePrompt_state_id e hdl p
      rw [hstep]
      exact ih e s hopen hstop hrest
    | generate hdl mt te tp tk rp sd =>
      have hstep : step e (.generate hdl mt te tp tk rp sd) = e := by
        simp [step, nativeGenerate, hopen, hstop]
      rw [hstep]
      exact ih e s hopen hstop hrest
    | stopGeneration hdl =>
      have hstep : step e (.stopGeneration hdl)
          = { e with g_state := some { s with shouldStop := true } } := by
        simp [step, nativeStopGeneration, hopen]
      rw [hstep]
      exact ih _ { s with shouldStop := true } rfl rfl hrest

/-- C9 witness: a cancelled session run through a prompt, a generate and a
redundant stop, after which the flag is still set. -/
theorem cancelRequested_sticky_witness :
    (run stoppedEngine stickyOps).g_state.map MlcLlmState.shouldStop = some true :=
  cancelRequested_sticky stickyOps stoppedEngine stoppedState rfl rfl (by
    intro op hop
    simp only [stickyOps, List.mem_cons, List.not_mem_nil, or_false] at hop
    rcases hop with rfl | rfl | rfl <;> rfl)

/-- C10: at every operation boundary reachable from the fresh process, the
session's `isGenerating` flag is false: `nativeGenerate` raises it only for
the duration of the call and clears it before returning, and no other
operation ever sets it. -/
theorem isGenerating_false_at_boundary (ops : List Op) (s : MlcLlmState)
    (hs : (run engine0 ops).g_state = some s) : s.isGenerating = false :=
  isGenerating_invariant_run ops engine0 (fun _ ht => Option.noConfusion ht) s hs

/-- C10 witness: after an open, a prompt ingestion and a generate call, the
session exists and is not flagged as generating. -/
theorem isGenerating_false_at_boundary_witness :
    (run engine0 boundaryOps).g_state = some {} ∧
    ({} : MlcLlmState).isGenerating = false :=
  ⟨by decide, isGenerating_false_at_boundary boundaryOps {} (by decide)⟩

end MlcLlm
